import Mathlib

/-!
# go-transactions: the transaction-posting protocol

A shallow embedding of `PostgresStore.AddTransaction` (src/storage.go) and of
its caller `APIServer.createNewTransaction` (src/transaction_api.go), with the
record types of src/models.go.

Modelling decisions.

* The relational store is explicit state: the rows of table `accounts` and the
  rows of table `transactions`, in table order.  The schema of
  `createAccountsTable` puts no uniqueness constraint on `account_number`, so
  the table is a plain list and an `UPDATE ... WHERE account_number = $2`
  touches every row carrying that number.
* `int64` amounts and `INT` balances are mathematical integers.  The Go code
  does no arithmetic on them (only the comparison `balance < tns.Amount`); the
  arithmetic is done by the store, where an out-of-range result is an error of
  the statement, that is, one of the store failures below.
* Store failures are an oracle, `Faults`: one flag per call that
  `AddTransaction` makes on `database/sql` after the two existence checks.
* A unit of work (`*sql.Tx`) is the pair of the committed store and the working
  copy seen by the statements of the unit of work: `Rollback` gives back the
  committed store, a successful `Commit` publishes the working copy, a failed
  `Commit` leaves the committed store.
* `CheckAccountPresent` ends the process through `log.Fatal` when its query
  fails; the model covers the calls in which the existence queries are
  answered.
* `fmt.Println` output is not modelled.  Time stamps are natural numbers.
-/

namespace GoTransactions

/-! ## Records (src/models.go) -/

/-- Go struct `Account`, one row of table `accounts`. -/
structure Account where
  ID : Int
  FirstName : String
  LastName : String
  Email : String
  AccountNumber : String
  Balance : Int
  CreatedAt : Nat
deriving DecidableEq, Repr

/-- Go struct `CreateTransactionRequest`, the decoded request body. -/
structure CreateTransactionRequest where
  HolderAccountNum : String
  ReceiverAccountNum : String
  TransactionType : String
  Amount : Int
  TransactionDate : Nat
deriving DecidableEq, Repr

/-- Go struct `Transaction`. -/
structure Transaction where
  ID : Int
  TransactionId : String
  TransactionType : String
  HolderAccountNum : String
  ReceiverAccountNum : String
  Amount : Int
  TransactionDate : Nat
  Status : String
  CreatedAt : Nat
deriving DecidableEq, Repr

/-- One row of table `transactions` as written by the `INSERT` of
`AddTransaction`: the seven columns the statement lists.  The columns `id` and
`transaction_date` are filled by the table defaults and are not written by the
engine. -/
structure AuditRow where
  transaction_id : String
  transaction_type : String
  holder_account_num : String
  receiver_account_num : String
  amount : Int
  status : String
  created_at : Nat
deriving DecidableEq, Repr

/-- The committed content of the two tables. -/
structure Store where
  accounts : List Account
  transactions : List AuditRow
deriving DecidableEq, Repr

/-! ## Store failures and errors -/

/-- The calls on the store that `AddTransaction` makes once both existence
checks have passed. -/
inductive Stmt where
  | beginTx
  | query
  | scan
  | debit
  | credit
  | deposit
  | audit
  | commit
deriving DecidableEq, Repr

/-- Failure oracle: a flag set to `true` makes the corresponding call return an
error when it is issued.  `debit` and `credit` are the two `UPDATE`s of a
transfer, `deposit` the `UPDATE` of a self-deposit, `audit` the `INSERT`. -/
structure Faults where
  beginTx : Bool
  query : Bool
  scan : Bool
  debit : Bool
  credit : Bool
  deposit : Bool
  audit : Bool
  commit : Bool
deriving DecidableEq, Repr

/-- The run of the store in which no call fails. -/
def Faults.none : Faults :=
  ⟨false, false, false, false, false, false, false, false⟩

/-- Go `error` values returned by the engine: a `fmt.Errorf` message, the error
of a failed store call, or the error of `json.Decoder.Decode`. -/
inductive TxError where
  | message (text : String)
  | store (stage : Stmt)
  | decode
deriving DecidableEq, Repr

/-- What a call leaves behind: the returned `error` (`none` is Go `nil`) and the
committed store after the call. -/
structure Outcome where
  err : Option TxError
  store : Store
deriving DecidableEq, Repr

/-! ## Statements -/

/-- Query `SELECT 1 AS account_present FROM accounts WHERE account_number = $1`
followed by `rows.Next()`: is there a row with this account number. -/
def CheckAccountPresent (db : Store) (accountNum : String) : Bool :=
  db.accounts.any fun a => decide (a.AccountNumber = accountNum)

/-- Statement `UPDATE accounts SET balance = balance + $1 WHERE account_number = $2`. -/
def creditRows (amount : Int) (accountNum : String) (rows : List Account) :
    List Account :=
  rows.map fun a =>
    if a.AccountNumber = accountNum then { a with Balance := a.Balance + amount } else a

/-- Statement `UPDATE accounts SET balance = balance - $1 WHERE account_number = $2`. -/
def debitRows (amount : Int) (accountNum : String) (rows : List Account) :
    List Account :=
  rows.map fun a =>
    if a.AccountNumber = accountNum then { a with Balance := a.Balance - amount } else a

/-- Query `SELECT balance FROM accounts WHERE account_number = $1`: the result set. -/
def selectBalance (accountNum : String) (rows : List Account) : List Int :=
  (rows.filter fun a => decide (a.AccountNumber = accountNum)).map fun a => a.Balance

/-- The loop `var balance int64; for rows.Next() { rows.Scan(&balance) }`: the
variable starts at zero and every scanned row overwrites it. -/
def scanBalance (resultSet : List Int) : Int :=
  resultSet.foldl (fun _ b => b) 0

/-- The balance the engine reads for an account number. -/
def balanceOf (db : Store) (accountNum : String) : Int :=
  scanBalance (selectBalance accountNum db.accounts)

/-- The row inserted by the audit `INSERT`; `receiver` is the value bound to
`receiver_account_num`. -/
def auditRow (tns : Transaction) (receiver : String) : AuditRow :=
  { transaction_id := tns.TransactionId
    transaction_type := tns.TransactionType
    holder_account_num := tns.HolderAccountNum
    receiver_account_num := receiver
    amount := tns.Amount
    status := tns.Status
    created_at := tns.CreatedAt }

/-! ## Unit of work -/

/-- An open `*sql.Tx`: the committed store and the working copy. -/
structure Tx where
  committed : Store
  work : Store
deriving DecidableEq, Repr

/-- Call `p.db.BeginTx(ctx, nil)` when it succeeds. -/
def BeginTx (db : Store) : Tx := ⟨db, db⟩

/-- Call `tx.Rollback()`: the working copy is dropped. -/
def Tx.Rollback (tx : Tx) : Store := tx.committed

/-- Call `tx.Commit()`: the returned error and the committed store afterwards. -/
def Tx.Commit (f : Faults) (tx : Tx) : Option TxError × Store :=
  if f.commit then (some (TxError.store Stmt.commit), tx.committed)
  else (Option.none, tx.work)

/-- A balance `UPDATE` run inside the unit of work. -/
def Tx.setAccounts (tx : Tx) (rows : List Account) : Tx :=
  { tx with work := { tx.work with accounts := rows } }

/-- The audit `INSERT` run inside the unit of work. -/
def Tx.insertAudit (tx : Tx) (row : AuditRow) : Tx :=
  { tx with work := { tx.work with transactions := tx.work.transactions ++ [row] } }

/-! ## The engine (src/storage.go, `AddTransaction`) -/

/-- The branch `tns.TransactionType == "self"`. -/
def addSelfDeposit (f : Faults) (db : Store) (tns : Transaction) : Outcome :=
  if !CheckAccountPresent db tns.HolderAccountNum then
    ⟨some (TxError.message "account not found"), db⟩
  else if f.beginTx then
    ⟨some (TxError.store Stmt.beginTx), db⟩
  else
    let tx := BeginTx db
    if f.deposit then
      ⟨some (TxError.store Stmt.deposit), tx.Rollback⟩
    else
      let tx := tx.setAccounts (creditRows tns.Amount tns.HolderAccountNum tx.work.accounts)
      if f.audit then
        ⟨some (TxError.store Stmt.audit), tx.Rollback⟩
      else
        let tx := tx.insertAudit (auditRow tns "-")
        match tx.Commit f with
        | (some e, st) => ⟨some e, st⟩
        | (Option.none, st) => ⟨Option.none, st⟩

/-- The `else` branch: a transfer from holder to receiver.  The result of
`tx.Commit()` is dropped (storage.go line 308) and the function returns `nil`. -/
def addTransfer (f : Faults) (db : Store) (tns : Transaction) : Outcome :=
  let holderAccountPresent := CheckAccountPresent db tns.HolderAccountNum
  let receiverAccountPresent := CheckAccountPresent db tns.ReceiverAccountNum
  if !holderAccountPresent || !receiverAccountPresent then
    if !holderAccountPresent then
      ⟨some (TxError.message "holder account not found"), db⟩
    else
      ⟨some (TxError.message "receiver account not found"), db⟩
  else if f.beginTx then
    ⟨some (TxError.store Stmt.beginTx), db⟩
  else
    let tx := BeginTx db
    if f.query then
      ⟨some (TxError.store Stmt.query), tx.Rollback⟩
    else
      let rows := selectBalance tns.HolderAccountNum tx.work.accounts
      if !rows.isEmpty && f.scan then
        ⟨some (TxError.store Stmt.scan), tx.Rollback⟩
      else
        let balance := scanBalance rows
        if balance < tns.Amount then
          ⟨some (TxError.message "insufficient balance"), tx.Rollback⟩
        else if f.debit then
          ⟨some (TxError.store Stmt.debit), tx.Rollback⟩
        else
          let tx := tx.setAccounts (debitRows tns.Amount tns.HolderAccountNum tx.work.accounts)
          if f.credit then
            ⟨some (TxError.store Stmt.credit), tx.Rollback⟩
          else
            let tx :=
              tx.setAccounts (creditRows tns.Amount tns.ReceiverAccountNum tx.work.accounts)
            if f.audit then
              ⟨some (TxError.store Stmt.audit), tx.Rollback⟩
            else
              let tx := tx.insertAudit (auditRow tns tns.ReceiverAccountNum)
              ⟨Option.none, (tx.Commit f).2⟩

/-- Method `func (p *PostgresStore) AddTransaction(tns *Transaction) error`. -/
def AddTransaction (f : Faults) (db : Store) (tns : Transaction) : Outcome :=
  if tns.TransactionType = "self" then addSelfDeposit f db tns else addTransfer f db tns

/-! ## The caller (src/transaction_operations.go, src/transaction_api.go) -/

/-- Constructor `CreateNewTransactionObj`; `newId` is the value of
`strings.ReplaceAll(uuid.New().String(), "-", "")` and `now` the value of
`time.Now().UTC()`. -/
def CreateNewTransactionObj (newId : String) (now : Nat)
    (transactionInfo : CreateTransactionRequest) : Transaction :=
  { ID := 0
    TransactionId := newId
    TransactionType := transactionInfo.TransactionType
    HolderAccountNum := transactionInfo.HolderAccountNum
    ReceiverAccountNum := transactionInfo.ReceiverAccountNum
    Amount := transactionInfo.Amount
    TransactionDate := transactionInfo.TransactionDate
    Status := "successfull"
    CreatedAt := now }

/-- Handler `createNewTransaction`: `body` is the result of decoding the request body
(`none` when `Decode` returns an error). -/
def createNewTransaction (f : Faults) (db : Store) (body : Option CreateTransactionRequest)
    (newId : String) (now : Nat) : Outcome :=
  match body with
  | Option.none => ⟨some TxError.decode, db⟩
  | some newTransactionInfo =>
    AddTransaction f db (CreateNewTransactionObj newId now newTransactionInfo)

/-- A finite sequence of `AddTransaction` calls, each with its own run of the
store, threaded through the committed store. -/
def runCalls (db : Store) (calls : List (Faults × Transaction)) : Store :=
  calls.foldl (fun st c => (AddTransaction c.1 st c.2).store) db

/-! ## Sample data -/

/-- An account row with the given number and balance. -/
def mkAccount (num : String) (bal : Int) : Account :=
  { ID := 0, FirstName := "", LastName := "", Email := "", AccountNumber := num,
    Balance := bal, CreatedAt := 0 }

/-- A transaction object as `CreateNewTransactionObj` builds it. -/
def mkTransaction (kind holder receiver : String) (amount : Int) : Transaction :=
  CreateNewTransactionObj "t1" 0
    { HolderAccountNum := holder, ReceiverAccountNum := receiver, TransactionType := kind,
      Amount := amount, TransactionDate := 0 }

/-- The store after both legs of a transfer and its audit row. -/
def transferApplied (db : Store) (tns : Transaction) : Store :=
  { accounts :=
      creditRows tns.Amount tns.ReceiverAccountNum
        (debitRows tns.Amount tns.HolderAccountNum db.accounts)
    transactions := db.transactions ++ [auditRow tns tns.ReceiverAccountNum] }

/-- The store after the credit of a self-deposit and its audit row. -/
def depositApplied (db : Store) (tns : Transaction) : Store :=
  { accounts := creditRows tns.Amount tns.HolderAccountNum db.accounts
    transactions := db.transactions ++ [auditRow tns "-"] }

/-- Every account row has a balance of at least zero. -/
def NonNegativeBalances (db : Store) : Prop :=
  ∀ a ∈ db.accounts, 0 ≤ a.Balance

/-- No two account rows carry the same account number (the numbers are UUIDs
drawn by `CreateNewAccount`; the schema itself does not enforce it). -/
def UniqueAccountNumbers (db : Store) : Prop :=
  (db.accounts.map fun a => a.AccountNumber).Nodup

/-- Some store call that follows the opening of the unit of work is set to fail:
for a self-deposit the holder credit, the audit insert or the commit; for a
transfer the balance read (query or scan), the holder debit, the receiver
credit, the audit insert or the commit. -/
def faultAfterBegin (f : Faults) (tns : Transaction) : Bool :=
  if tns.TransactionType = "self" then f.deposit || f.audit || f.commit
  else f.query || f.scan || f.debit || f.credit || f.audit || f.commit

/-- A run of the store in which only the commit fails. -/
def commitFails : Faults :=
  { Faults.none with commit := true }

/-! ## Sample stores and requests -/

/-- Holder `a` with balance 100 and receiver `b` with balance 0, empty audit log. -/
def sampleStore : Store := ⟨[mkAccount "a" 100, mkAccount "b" 0], []⟩

/-- A single account `a` with balance 0, empty audit log. -/
def emptyWallet : Store := ⟨[mkAccount "a" 0], []⟩

/-- A run of the store in which only the receiver credit of a transfer fails. -/
def creditFails : Faults :=
  { Faults.none with credit := true }

/-- The sample store with one earlier audit row. -/
def loggedStore : Store :=
  ⟨[mkAccount "a" 100, mkAccount "b" 0], [auditRow (mkTransaction "self" "a" "-" 100) "-"]⟩

/-- A decoded request body: a self-deposit of amount -5 to account `a`. -/
def negativeDeposit : CreateTransactionRequest :=
  { HolderAccountNum := "a", ReceiverAccountNum := "", TransactionType := "self",
    Amount := -5, TransactionDate := 0 }

/-- A decoded request body: a transfer of amount 0 from `a` to `b`. -/
def zeroTransfer : CreateTransactionRequest :=
  { HolderAccountNum := "a", ReceiverAccountNum := "b", TransactionType := "transfer",
    Amount := 0, TransactionDate := 0 }

/-- Two account rows agree on every column but the balance: `id`, first and last
name, email, account number and creation time. -/
def sameButBalance (a a' : Account) : Prop :=
  a'.ID = a.ID ∧ a'.FirstName = a.FirstName ∧ a'.LastName = a.LastName ∧
  a'.Email = a.Email ∧ a'.AccountNumber = a.AccountNumber ∧ a'.CreatedAt = a.CreatedAt

/-- Frame of one call on one account row, `a` before and `a'` after: nothing but
the balance differs; a row that carries neither the holder's nor the receiver's
number is the same row; and in a self-deposit every row that does not carry the
holder's number is the same row. -/
def FrameRow (tns : Transaction) (a a' : Account) : Prop :=
  sameButBalance a a' ∧
  (a.AccountNumber ≠ tns.HolderAccountNum → a.AccountNumber ≠ tns.ReceiverAccountNum →
    a' = a) ∧
  (tns.TransactionType = "self" → a.AccountNumber ≠ tns.HolderAccountNum → a' = a)

/-- A store with a third account `c` that no sample request names. -/
def threeAccounts : Store :=
  ⟨[mkAccount "a" 100, mkAccount "b" 0, mkAccount "c" 7], []⟩

/-! ## Basic facts about the statements -/

theorem checkAccountPresent_iff (db : Store) (num : String) :
    CheckAccountPresent db num = true ↔ ∃ a ∈ db.accounts, a.AccountNumber = num := by
  simp [CheckAccountPresent]

theorem selectBalance_ne_nil_iff (num : String) (rows : List Account) :
    selectBalance num rows ≠ [] ↔ ∃ a ∈ rows, a.AccountNumber = num := by
  induction rows with
  | nil => simp [selectBalance]
  | cons a rest ih =>
    by_cases h : a.AccountNumber = num
    · simp [selectBalance, List.filter_cons, h]
    · simp only [selectBalance] at ih
      simp [selectBalance, List.filter_cons, h, ih]

theorem selectBalance_ne_nil_of_present (db : Store) (num : String)
    (h : CheckAccountPresent db num = true) : selectBalance num db.accounts ≠ [] :=
  (selectBalance_ne_nil_iff num db.accounts).2 ((checkAccountPresent_iff db num).1 h)

/-- Closed form of the transfer branch when both accounts exist. -/
theorem addTransfer_present (f : Faults) (db : Store) (tns : Transaction)
    (hh : CheckAccountPresent db tns.HolderAccountNum = true)
    (hr : CheckAccountPresent db tns.ReceiverAccountNum = true) :
    addTransfer f db tns =
      if f.beginTx then ⟨some (TxError.store Stmt.beginTx), db⟩
      else if f.query then ⟨some (TxError.store Stmt.query), db⟩
      else if f.scan then ⟨some (TxError.store Stmt.scan), db⟩
      else if balanceOf db tns.HolderAccountNum < tns.Amount then
        ⟨some (TxError.message "insufficient balance"), db⟩
      else if f.debit then ⟨some (TxError.store Stmt.debit), db⟩
      else if f.credit then ⟨some (TxError.store Stmt.credit), db⟩
      else if f.audit then ⟨some (TxError.store Stmt.audit), db⟩
      else if f.commit then ⟨Option.none, db⟩
      else ⟨Option.none, transferApplied db tns⟩ := by
  have hne : selectBalance tns.HolderAccountNum db.accounts ≠ [] :=
    selectBalance_ne_nil_of_present db _ hh
  have hemp : (selectBalance tns.HolderAccountNum db.accounts).isEmpty = false := by
    cases hs : selectBalance tns.HolderAccountNum db.accounts with
    | nil => exact absurd hs hne
    | cons b bs => rfl
  simp only [addTransfer, hh, hr, BeginTx, Tx.Rollback, Tx.Commit, Tx.setAccounts,
    Tx.insertAudit, balanceOf, transferApplied, hemp]
  cases f.beginTx <;> cases f.query <;> cases f.scan <;> cases f.debit <;> cases f.credit <;>
    cases f.audit <;> cases f.commit <;> simp

/-- Closed form of the transfer branch when an account is missing. -/
theorem addTransfer_absent (f : Faults) (db : Store) (tns : Transaction)
    (h : CheckAccountPresent db tns.HolderAccountNum = false ∨
      CheckAccountPresent db tns.ReceiverAccountNum = false) :
    addTransfer f db tns =
      if CheckAccountPresent db tns.HolderAccountNum = false then
        ⟨some (TxError.message "holder account not found"), db⟩
      else ⟨some (TxError.message "receiver account not found"), db⟩ := by
  rcases h with h | h
  · simp [addTransfer, h]
  · cases hh : CheckAccountPresent db tns.HolderAccountNum <;> simp [addTransfer, h, hh]

/-- Closed form of the self-deposit branch when the holder exists. -/
theorem addSelfDeposit_present (f : Faults) (db : Store) (tns : Transaction)
    (hh : CheckAccountPresent db tns.HolderAccountNum = true) :
    addSelfDeposit f db tns =
      if f.beginTx then ⟨some (TxError.store Stmt.beginTx), db⟩
      else if f.deposit then ⟨some (TxError.store Stmt.deposit), db⟩
      else if f.audit then ⟨some (TxError.store Stmt.audit), db⟩
      else if f.commit then ⟨some (TxError.store Stmt.commit), db⟩
      else ⟨Option.none, depositApplied db tns⟩ := by
  simp only [addSelfDeposit, hh, BeginTx, Tx.Rollback, Tx.Commit, Tx.setAccounts,
    Tx.insertAudit, depositApplied]
  cases f.beginTx <;> cases f.deposit <;> cases f.audit <;> cases f.commit <;> simp

/-- Closed form of the self-deposit branch when the holder is missing. -/
theorem addSelfDeposit_absent (f : Faults) (db : Store) (tns : Transaction)
    (hh : CheckAccountPresent db tns.HolderAccountNum = false) :
    addSelfDeposit f db tns = ⟨some (TxError.message "account not found"), db⟩ := by
  simp [addSelfDeposit, hh]

/-! ## Balances read after an update -/

/-- Selecting after a row-wise update that keeps the account numbers: the same
rows are selected, each one updated. -/
theorem selectBalance_map (g : Account → Account)
    (hg : ∀ a, (g a).AccountNumber = a.AccountNumber) (num : String) (rows : List Account) :
    selectBalance num (rows.map g) =
      (rows.filter fun a => decide (a.AccountNumber = num)).map fun a => (g a).Balance := by
  induction rows with
  | nil => rfl
  | cons a rest ih =>
    simp only [selectBalance] at ih
    by_cases h : a.AccountNumber = num
    · simp [selectBalance, List.filter_cons, hg, h, ih]
    · simp [selectBalance, List.filter_cons, hg, h, ih]

theorem creditRow_number (d : Int) (num : String) (a : Account) :
    (if a.AccountNumber = num then { a with Balance := a.Balance + d } else a).AccountNumber =
      a.AccountNumber := by
  split <;> rfl

theorem debitRow_number (d : Int) (num : String) (a : Account) :
    (if a.AccountNumber = num then { a with Balance := a.Balance - d } else a).AccountNumber =
      a.AccountNumber := by
  split <;> rfl

theorem selectBalance_creditRows_same (d : Int) (num : String) (rows : List Account) :
    selectBalance num (creditRows d num rows) = (selectBalance num rows).map fun b => b + d := by
  rw [creditRows, selectBalance_map _ (creditRow_number d num), selectBalance, List.map_map]
  apply List.map_congr_left
  intro a ha
  have h : a.AccountNumber = num := by simpa using (List.mem_filter.1 ha).2
  simp [h]

theorem selectBalance_creditRows_other (d : Int) (num other : String) (rows : List Account)
    (hne : num ≠ other) :
    selectBalance num (creditRows d other rows) = selectBalance num rows := by
  rw [creditRows, selectBalance_map _ (creditRow_number d other), selectBalance]
  apply List.map_congr_left
  intro a ha
  have h : a.AccountNumber = num := by simpa using (List.mem_filter.1 ha).2
  simp [h, hne]

theorem selectBalance_debitRows_same (d : Int) (num : String) (rows : List Account) :
    selectBalance num (debitRows d num rows) = (selectBalance num rows).map fun b => b - d := by
  rw [debitRows, selectBalance_map _ (debitRow_number d num), selectBalance, List.map_map]
  apply List.map_congr_left
  intro a ha
  have h : a.AccountNumber = num := by simpa using (List.mem_filter.1 ha).2
  simp [h]

theorem selectBalance_debitRows_other (d : Int) (num other : String) (rows : List Account)
    (hne : num ≠ other) :
    selectBalance num (debitRows d other rows) = selectBalance num rows := by
  rw [debitRows, selectBalance_map _ (debitRow_number d other), selectBalance]
  apply List.map_congr_left
  intro a ha
  have h : a.AccountNumber = num := by simpa using (List.mem_filter.1 ha).2
  simp [h, hne]

theorem foldl_overwrite_map (g : Int → Int) (bs : List Int) (init : Int) :
    (bs.map g).foldl (fun _ b => b) (g init) = g (bs.foldl (fun _ b => b) init) := by
  induction bs generalizing init with
  | nil => rfl
  | cons b rest ih => simpa using ih b

/-- Scanning a non-empty result set whose every value went through `g` gives `g`
of the scan of the original result set. -/
theorem scanBalance_map (g : Int → Int) (bs : List Int) (hne : bs ≠ []) :
    scanBalance (bs.map g) = g (scanBalance bs) := by
  cases bs with
  | nil => exact absurd rfl hne
  | cons b rest =>
    simp only [scanBalance, List.map_cons, List.foldl_cons]
    exact foldl_overwrite_map g rest b

/-! ## What a call without returned error has done -/

/-- A self-deposit that returns no error has its holder in the store and leaves
the store with the credit and the audit row applied. -/
theorem selfDeposit_of_no_error (f : Faults) (db : Store) (tns : Transaction)
    (hkind : tns.TransactionType = "self")
    (herr : (AddTransaction f db tns).err = Option.none) :
    CheckAccountPresent db tns.HolderAccountNum = true ∧
    (AddTransaction f db tns).store = depositApplied db tns := by
  simp only [AddTransaction, if_pos hkind] at herr ⊢
  cases hh : CheckAccountPresent db tns.HolderAccountNum with
  | false => rw [addSelfDeposit_absent f db tns hh] at herr; cases herr
  | true =>
    rw [addSelfDeposit_present f db tns hh] at herr ⊢
    refine ⟨rfl, ?_⟩
    revert herr
    cases f.beginTx <;> cases f.deposit <;> cases f.audit <;> cases f.commit <;> simp

/-- A transfer that returns no error has both accounts in the store and a holder
balance of at least the amount; when moreover the commit did not fail, the store
has both legs and the audit row applied, and when the commit failed the store is
the one before the call. -/
theorem transfer_of_no_error (f : Faults) (db : Store) (tns : Transaction)
    (hkind : tns.TransactionType ≠ "self")
    (herr : (AddTransaction f db tns).err = Option.none) :
    CheckAccountPresent db tns.HolderAccountNum = true ∧
    CheckAccountPresent db tns.ReceiverAccountNum = true ∧
    tns.Amount ≤ balanceOf db tns.HolderAccountNum ∧
    (AddTransaction f db tns).store = if f.commit then db else transferApplied db tns := by
  simp only [AddTransaction, if_neg hkind] at herr ⊢
  cases hh : CheckAccountPresent db tns.HolderAccountNum with
  | false =>
    rw [addTransfer_absent f db tns (Or.inl hh)] at herr
    split at herr <;> cases herr
  | true =>
    cases hr : CheckAccountPresent db tns.ReceiverAccountNum with
    | false =>
      rw [addTransfer_absent f db tns (Or.inr hr)] at herr
      split at herr <;> cases herr
    | true =>
      rw [addTransfer_present f db tns hh hr] at herr ⊢
      refine ⟨rfl, rfl, ?_⟩
      by_cases hlt : balanceOf db tns.HolderAccountNum < tns.Amount
      · exfalso
        revert herr
        simp only [if_pos hlt]
        cases f.beginTx <;> cases f.query <;> cases f.scan <;> simp
      · refine ⟨not_lt.mp hlt, ?_⟩
        revert herr
        simp only [if_neg hlt]
        cases f.beginTx <;> cases f.query <;> cases f.scan <;> cases f.debit <;>
          cases f.credit <;> cases f.audit <;> cases f.commit <;> simp

/-! ## Insufficient balance -/

/-- C1: for a transfer whose holder and receiver both exist, in a run without
store failure, `AddTransaction` returns the error "insufficient balance" exactly
when the balance read for the holder is strictly below the amount; a balance of
at least the amount is accepted; and when the error is returned the store
(balances and audit log) is the one before the call. -/
theorem C1_insufficient_balance (db : Store) (tns : Transaction)
    (hkind : tns.TransactionType ≠ "self")
    (hh : CheckAccountPresent db tns.HolderAccountNum = true)
    (hr : CheckAccountPresent db tns.ReceiverAccountNum = true) :
    ((AddTransaction Faults.none db tns).err = some (TxError.message "insufficient balance") ↔
        balanceOf db tns.HolderAccountNum < tns.Amount) ∧
    (tns.Amount ≤ balanceOf db tns.HolderAccountNum →
        (AddTransaction Faults.none db tns).err = Option.none) ∧
    ((AddTransaction Faults.none db tns).err = some (TxError.message "insufficient balance") →
        (AddTransaction Faults.none db tns).store = db) := by
  have hform : AddTransaction Faults.none db tns =
      if balanceOf db tns.HolderAccountNum < tns.Amount then
        ⟨some (TxError.message "insufficient balance"), db⟩
      else ⟨Option.none, transferApplied db tns⟩ := by
    simp only [AddTransaction, if_neg hkind]
    rw [addTransfer_present Faults.none db tns hh hr]
    simp [Faults.none]
  rw [hform]
  by_cases hlt : balanceOf db tns.HolderAccountNum < tns.Amount
  · rw [if_pos hlt]
    exact ⟨⟨fun _ => hlt, fun _ => rfl⟩, fun hle => absurd hlt (not_lt.mpr hle), fun _ => rfl⟩
  · rw [if_neg hlt]
    refine ⟨⟨fun h => ?_, fun h => absurd h hlt⟩, fun _ => rfl, fun h => ?_⟩
    · cases h
    · cases h

/-- C1 witness: holder balance 100, transfer of 150: rejected with "insufficient
balance", the holder still has 100 and the audit log is still empty. -/
theorem C1_insufficient_balance_witness :
    (AddTransaction Faults.none sampleStore (mkTransaction "transfer" "a" "b" 150)).err =
        some (TxError.message "insufficient balance") ∧
    (AddTransaction Faults.none sampleStore (mkTransaction "transfer" "a" "b" 150)).store =
        sampleStore ∧
    balanceOf sampleStore "a" = 100 :=
  have h := C1_insufficient_balance sampleStore (mkTransaction "transfer" "a" "b" 150)
    (by decide) (by decide) (by decide)
  ⟨h.1.2 (by decide), h.2.2 (h.1.2 (by decide)), by decide⟩

/-! ## Missing accounts -/

/-- C2: whatever the store and the run of the store, a transfer whose holder is
missing returns "holder account not found" (also when the receiver is missing
too), a transfer with only the receiver missing returns "receiver account not
found", a self-deposit whose holder is missing returns "account not found", each
time with the store unchanged; hence a call that returns no error or changes the
store has an existing holder and, for a transfer, an existing receiver. -/
theorem C2_account_not_found (f : Faults) (db : Store) (tns : Transaction) :
    (tns.TransactionType ≠ "self" → CheckAccountPresent db tns.HolderAccountNum = false →
        AddTransaction f db tns = ⟨some (TxError.message "holder account not found"), db⟩) ∧
    (tns.TransactionType ≠ "self" → CheckAccountPresent db tns.HolderAccountNum = true →
        CheckAccountPresent db tns.ReceiverAccountNum = false →
        AddTransaction f db tns = ⟨some (TxError.message "receiver account not found"), db⟩) ∧
    (tns.TransactionType = "self" → CheckAccountPresent db tns.HolderAccountNum = false →
        AddTransaction f db tns = ⟨some (TxError.message "account not found"), db⟩) ∧
    ((AddTransaction f db tns).err = Option.none ∨ (AddTransaction f db tns).store ≠ db →
        CheckAccountPresent db tns.HolderAccountNum = true ∧
        (tns.TransactionType ≠ "self" →
          CheckAccountPresent db tns.ReceiverAccountNum = true)) := by
  have h1 : tns.TransactionType ≠ "self" → CheckAccountPresent db tns.HolderAccountNum = false →
      AddTransaction f db tns = ⟨some (TxError.message "holder account not found"), db⟩ := by
    intro hk hh
    simp only [AddTransaction, if_neg hk]
    rw [addTransfer_absent f db tns (Or.inl hh), if_pos hh]
  have h2 : tns.TransactionType ≠ "self" → CheckAccountPresent db tns.HolderAccountNum = true →
      CheckAccountPresent db tns.ReceiverAccountNum = false →
      AddTransaction f db tns = ⟨some (TxError.message "receiver account not found"), db⟩ := by
    intro hk hh hr
    simp only [AddTransaction, if_neg hk]
    rw [addTransfer_absent f db tns (Or.inr hr), if_neg (by simp [hh])]
  have h3 : tns.TransactionType = "self" → CheckAccountPresent db tns.HolderAccountNum = false →
      AddTransaction f db tns = ⟨some (TxError.message "account not found"), db⟩ := by
    intro hk hh
    simp only [AddTransaction, if_pos hk]
    exact addSelfDeposit_absent f db tns hh
  refine ⟨h1, h2, h3, ?_⟩
  intro hcommitted
  by_cases hk : tns.TransactionType = "self"
  · cases hh : CheckAccountPresent db tns.HolderAccountNum with
    | true => exact ⟨rfl, fun hne => absurd hk hne⟩
    | false =>
      rw [h3 hk hh] at hcommitted
      simp at hcommitted
  · cases hh : CheckAccountPresent db tns.HolderAccountNum with
    | false =>
      rw [h1 hk hh] at hcommitted
      simp at hcommitted
    | true =>
      cases hr : CheckAccountPresent db tns.ReceiverAccountNum with
      | true => exact ⟨rfl, fun _ => rfl⟩
      | false =>
        rw [h2 hk hh hr] at hcommitted
        simp at hcommitted

/-- C2 witness: in the sample store (accounts `a` and `b`), a transfer from the
missing `x` to the missing `y`, a transfer from `a` to the missing `y` and a
self-deposit to the missing `x` are rejected with the three messages, store
unchanged, even when every later store call would fail. -/
theorem C2_account_not_found_witness :
    AddTransaction Faults.none sampleStore (mkTransaction "transfer" "x" "y" 10) =
        ⟨some (TxError.message "holder account not found"), sampleStore⟩ ∧
    AddTransaction Faults.none sampleStore (mkTransaction "transfer" "a" "y" 10) =
        ⟨some (TxError.message "receiver account not found"), sampleStore⟩ ∧
    AddTransaction ⟨true, true, true, true, true, true, true, true⟩ sampleStore
        (mkTransaction "self" "x" "b" 10) =
        ⟨some (TxError.message "account not found"), sampleStore⟩ :=
  ⟨(C2_account_not_found Faults.none sampleStore (mkTransaction "transfer" "x" "y" 10)).1
      (by decide) (by decide),
    (C2_account_not_found Faults.none sampleStore (mkTransaction "transfer" "a" "y" 10)).2.1
      (by decide) (by decide) (by decide),
    (C2_account_not_found ⟨true, true, true, true, true, true, true, true⟩ sampleStore
      (mkTransaction "self" "x" "b" 10)).2.2.1 (by decide) (by decide)⟩

/-! ## Conservation -/

/-- The balances read after a transfer that was applied. -/
theorem balanceOf_transferApplied (db : Store) (tns : Transaction)
    (hh : CheckAccountPresent db tns.HolderAccountNum = true)
    (hr : CheckAccountPresent db tns.ReceiverAccountNum = true) :
    (tns.HolderAccountNum ≠ tns.ReceiverAccountNum →
      balanceOf (transferApplied db tns) tns.HolderAccountNum =
          balanceOf db tns.HolderAccountNum - tns.Amount ∧
      balanceOf (transferApplied db tns) tns.ReceiverAccountNum =
          balanceOf db tns.ReceiverAccountNum + tns.Amount) ∧
    (tns.HolderAccountNum = tns.ReceiverAccountNum →
      balanceOf (transferApplied db tns) tns.HolderAccountNum =
          balanceOf db tns.HolderAccountNum) := by
  have hhne := selectBalance_ne_nil_of_present db _ hh
  have hrne := selectBalance_ne_nil_of_present db _ hr
  constructor
  · intro hne
    constructor
    · simp only [balanceOf, transferApplied]
      rw [selectBalance_creditRows_other _ _ _ _ hne, selectBalance_debitRows_same,
        scanBalance_map _ _ hhne]
    · simp only [balanceOf, transferApplied]
      rw [selectBalance_creditRows_same, selectBalance_debitRows_other _ _ _ _ (Ne.symm hne),
        scanBalance_map _ _ hrne]
  · intro heq
    simp only [balanceOf, transferApplied]
    rw [← heq, selectBalance_creditRows_same, selectBalance_debitRows_same, List.map_map,
      scanBalance_map _ _ hhne]
    simp

/-- C3 (as stated, refuted): a committed transfer of 10 from account `a` to the
same account `a` (accepted by `AddTransaction`, no store failure) leaves the
balance of `a` at 100, not at its old value minus 10. -/
theorem C3_counterexample_same_account :
    CheckAccountPresent sampleStore "a" = true ∧
    (AddTransaction Faults.none sampleStore (mkTransaction "transfer" "a" "a" 10)).err =
        Option.none ∧
    (AddTransaction Faults.none sampleStore
        (mkTransaction "transfer" "a" "a" 10)).store.transactions.length = 1 ∧
    balanceOf sampleStore "a" = 100 ∧
    balanceOf (AddTransaction Faults.none sampleStore
        (mkTransaction "transfer" "a" "a" 10)).store "a" = 100 ∧
    balanceOf (AddTransaction Faults.none sampleStore
        (mkTransaction "transfer" "a" "a" 10)).store "a" ≠ balanceOf sampleStore "a" - 10 := by
  decide

/-- C3 (amended): for every committed transfer (no error returned, commit not
failed) of amount A from holder X to receiver Y: when X and Y differ, the
balance of X is its old value minus A and the balance of Y its old value plus A;
when X and Y are the same account its balance is unchanged; in both cases the
sum of the two balances is unchanged. -/
theorem C3_transfer_conservation (f : Faults) (db : Store) (tns : Transaction)
    (hkind : tns.TransactionType ≠ "self")
    (herr : (AddTransaction f db tns).err = Option.none)
    (hcommit : f.commit = false) :
    (tns.HolderAccountNum ≠ tns.ReceiverAccountNum →
      balanceOf (AddTransaction f db tns).store tns.HolderAccountNum =
          balanceOf db tns.HolderAccountNum - tns.Amount ∧
      balanceOf (AddTransaction f db tns).store tns.ReceiverAccountNum =
          balanceOf db tns.ReceiverAccountNum + tns.Amount) ∧
    (tns.HolderAccountNum = tns.ReceiverAccountNum →
      balanceOf (AddTransaction f db tns).store tns.HolderAccountNum =
          balanceOf db tns.HolderAccountNum) ∧
    balanceOf (AddTransaction f db tns).store tns.HolderAccountNum +
        balanceOf (AddTransaction f db tns).store tns.ReceiverAccountNum =
      balanceOf db tns.HolderAccountNum + balanceOf db tns.ReceiverAccountNum := by
  obtain ⟨hh, hr, -, hstore⟩ := transfer_of_no_error f db tns hkind herr
  rw [hstore, hcommit]
  simp only [Bool.false_eq_true, if_false]
  have hbal := balanceOf_transferApplied db tns hh hr
  refine ⟨hbal.1, hbal.2, ?_⟩
  by_cases hxy : tns.HolderAccountNum = tns.ReceiverAccountNum
  · have h := hbal.2 hxy
    rw [← hxy, h]
  · obtain ⟨h1, h2⟩ := hbal.1 hxy
    rw [h1, h2]
    ring

/-- C3 witness: a transfer of 60 from `a` (100) to `b` (0) with no store failure
is committed and leaves `a` at 40 and `b` at 60. -/
theorem C3_transfer_conservation_witness :
    (AddTransaction Faults.none sampleStore (mkTransaction "transfer" "a" "b" 60)).err =
        Option.none ∧
    balanceOf (AddTransaction Faults.none sampleStore
        (mkTransaction "transfer" "a" "b" 60)).store "a" = balanceOf sampleStore "a" - 60 ∧
    balanceOf (AddTransaction Faults.none sampleStore
        (mkTransaction "transfer" "a" "b" 60)).store "b" = balanceOf sampleStore "b" + 60 ∧
    balanceOf (AddTransaction Faults.none sampleStore
        (mkTransaction "transfer" "a" "b" 60)).store "a" = 40 :=
  have h := C3_transfer_conservation Faults.none sampleStore
    (mkTransaction "transfer" "a" "b" 60) (by decide) (by decide) (by decide)
  ⟨by decide, (h.1 (by decide)).1, (h.1 (by decide)).2, by decide⟩

/-! ## Non-negative balances -/

/-- The store after a call is the store before it, or the store with the
self-deposit applied, or (holder balance at least the amount) the store with
the transfer applied. -/
theorem AddTransaction_store_cases (f : Faults) (db : Store) (tns : Transaction) :
    (AddTransaction f db tns).store = db ∨
    (tns.TransactionType = "self" ∧ (AddTransaction f db tns).store = depositApplied db tns) ∨
    (tns.TransactionType ≠ "self" ∧ tns.Amount ≤ balanceOf db tns.HolderAccountNum ∧
      (AddTransaction f db tns).store = transferApplied db tns) := by
  by_cases hkind : tns.TransactionType = "self"
  · simp only [AddTransaction, if_pos hkind]
    cases hh : CheckAccountPresent db tns.HolderAccountNum with
    | false => left; rw [addSelfDeposit_absent f db tns hh]
    | true =>
      rw [addSelfDeposit_present f db tns hh]
      cases f.beginTx <;> cases f.deposit <;> cases f.audit <;> cases f.commit <;>
        simp [hkind]
  · simp only [AddTransaction, if_neg hkind]
    cases hh : CheckAccountPresent db tns.HolderAccountNum with
    | false =>
      left; rw [addTransfer_absent f db tns (Or.inl hh)]; split <;> rfl
    | true =>
      cases hr : CheckAccountPresent db tns.ReceiverAccountNum with
      | false =>
        left; rw [addTransfer_absent f db tns (Or.inr hr)]; split <;> rfl
      | true =>
        rw [addTransfer_present f db tns hh hr]
        by_cases hlt : balanceOf db tns.HolderAccountNum < tns.Amount
        · left
          simp only [if_pos hlt]
          cases f.beginTx <;> cases f.query <;> cases f.scan <;> simp
        · simp only [if_neg hlt]
          have hle := not_lt.mp hlt
          cases f.beginTx <;> cases f.query <;> cases f.scan <;> cases f.debit <;>
            cases f.credit <;> cases f.audit <;> cases f.commit <;> simp [hkind, hle]

/-- With unique account numbers, the result set of the balance query for the
number of a row is that row's balance alone. -/
theorem selectBalance_of_unique (rows : List Account)
    (huniq : (rows.map fun a => a.AccountNumber).Nodup) (a : Account) (ha : a ∈ rows) :
    selectBalance a.AccountNumber rows = [a.Balance] := by
  induction rows with
  | nil => cases ha
  | cons b rest ih =>
    simp only [List.map_cons, List.nodup_cons, List.mem_map, not_exists, not_and] at huniq
    rcases List.mem_cons.1 ha with hab | hmem
    · subst hab
      have hnone : (rest.filter fun c => decide (c.AccountNumber = a.AccountNumber)) = [] := by
        rw [List.filter_eq_nil_iff]
        intro c hc
        simpa using huniq.1 c hc
      simp [selectBalance, List.filter_cons, hnone]
    · have hne : ¬ b.AccountNumber = a.AccountNumber := fun e => huniq.1 a hmem e.symm
      have := ih huniq.2 hmem
      simp only [selectBalance] at this
      simp [selectBalance, List.filter_cons, hne, this]

theorem balanceOf_of_unique (db : Store) (huniq : UniqueAccountNumbers db) (a : Account)
    (ha : a ∈ db.accounts) : balanceOf db a.AccountNumber = a.Balance := by
  simp [balanceOf, selectBalance_of_unique db.accounts huniq a ha, scanBalance]

theorem creditRows_numbers (d : Int) (num : String) (rows : List Account) :
    (creditRows d num rows).map (fun a => a.AccountNumber) =
      rows.map fun a => a.AccountNumber := by
  simp only [creditRows, List.map_map]
  apply List.map_congr_left
  intro a _
  exact creditRow_number d num a

theorem debitRows_numbers (d : Int) (num : String) (rows : List Account) :
    (debitRows d num rows).map (fun a => a.AccountNumber) =
      rows.map fun a => a.AccountNumber := by
  simp only [debitRows, List.map_map]
  apply List.map_congr_left
  intro a _
  exact debitRow_number d num a

/-- The column of account numbers is the same after every call. -/
theorem AddTransaction_numbers (f : Faults) (db : Store) (tns : Transaction) :
    (AddTransaction f db tns).store.accounts.map (fun a => a.AccountNumber) =
      db.accounts.map fun a => a.AccountNumber := by
  rcases AddTransaction_store_cases f db tns with h | ⟨-, h⟩ | ⟨-, -, h⟩
  · rw [h]
  · rw [h, depositApplied, creditRows_numbers]
  · rw [h, transferApplied, creditRows_numbers, debitRows_numbers]

/-- One call with an amount of at least zero keeps all balances at least zero,
in a store with unique account numbers. -/
theorem AddTransaction_nonNegative (f : Faults) (db : Store) (tns : Transaction)
    (huniq : UniqueAccountNumbers db) (hnn : NonNegativeBalances db)
    (hamount : 0 ≤ tns.Amount) :
    NonNegativeBalances (AddTransaction f db tns).store := by
  rcases AddTransaction_store_cases f db tns with h | ⟨-, h⟩ | ⟨-, hle, h⟩
  · rw [h]; exact hnn
  · rw [h]
    intro a' ha'
    simp only [depositApplied, creditRows, List.mem_map] at ha'
    obtain ⟨a, ha, rfl⟩ := ha'
    have h0 := hnn a ha
    split
    · show 0 ≤ a.Balance + tns.Amount
      omega
    · exact h0
  · rw [h]
    intro a' ha'
    simp only [transferApplied, creditRows, debitRows, List.mem_map] at ha'
    obtain ⟨b, ⟨a, ha, rfl⟩, rfl⟩ := ha'
    have h0 := hnn a ha
    by_cases hx : a.AccountNumber = tns.HolderAccountNum
    · have hbal : balanceOf db tns.HolderAccountNum = a.Balance := by
        rw [← hx]; exact balanceOf_of_unique db huniq a ha
      rw [hbal] at hle
      simp only [if_pos hx]
      split
      · show 0 ≤ a.Balance - tns.Amount + tns.Amount
        omega
      · show 0 ≤ a.Balance - tns.Amount
        omega
    · simp only [if_neg hx]
      split
      · show 0 ≤ a.Balance + tns.Amount
        omega
      · exact h0

/-- Why unique account numbers are asked for: with two rows carrying the number
`a` (balances 0 and 100), the balance check of a transfer of 50 reads the last
row (100) while the debit touches both rows, and the first one ends at -50. -/
theorem duplicate_numbers_overdraw :
    (AddTransaction Faults.none ⟨[mkAccount "a" 0, mkAccount "a" 100, mkAccount "b" 0], []⟩
        (mkTransaction "transfer" "a" "b" 50)).store.accounts =
      [mkAccount "a" (-50), mkAccount "a" 50, mkAccount "b" 50] := by
  decide

/-- C4 (as stated, refuted): from a store with balances 0 and 10, the single
accepted transfer of amount -30 from `a` to `b` (no store failure) leaves `b`
with the negative balance -20. -/
theorem C4_counterexample_negative_amount :
    NonNegativeBalances ⟨[mkAccount "a" 0, mkAccount "b" 10], []⟩ ∧
    UniqueAccountNumbers ⟨[mkAccount "a" 0, mkAccount "b" 10], []⟩ ∧
    (AddTransaction Faults.none ⟨[mkAccount "a" 0, mkAccount "b" 10], []⟩
        (mkTransaction "transfer" "a" "b" (-30))).err = Option.none ∧
    (runCalls ⟨[mkAccount "a" 0, mkAccount "b" 10], []⟩
        [(Faults.none, mkTransaction "transfer" "a" "b" (-30))]).accounts =
      [mkAccount "a" 30, mkAccount "b" (-20)] ∧
    ¬ NonNegativeBalances (runCalls ⟨[mkAccount "a" 0, mkAccount "b" 10], []⟩
        [(Faults.none, mkTransaction "transfer" "a" "b" (-30))]) := by
  unfold NonNegativeBalances UniqueAccountNumbers
  decide

/-- C4 (amended): starting from any store with unique account numbers in which
every balance is at least zero, after any finite sequence of `AddTransaction`
calls (transfers and self-deposits, any run of the store) whose amounts are at
least zero, every balance is still at least zero. -/
theorem C4_non_negative_balances (db : Store) (calls : List (Faults × Transaction))
    (huniq : UniqueAccountNumbers db) (hnn : NonNegativeBalances db)
    (hamount : ∀ c ∈ calls, 0 ≤ c.2.Amount) :
    NonNegativeBalances (runCalls db calls) := by
  induction calls generalizing db with
  | nil => exact hnn
  | cons c rest ih =>
    have hstep : runCalls db (c :: rest) = runCalls (AddTransaction c.1 db c.2).store rest := rfl
    rw [hstep]
    apply ih
    · unfold UniqueAccountNumbers
      rw [AddTransaction_numbers]
      exact huniq
    · exact AddTransaction_nonNegative c.1 db c.2 huniq hnn (hamount c (List.mem_cons_self _ _))
    · intro c' hc'
      exact hamount c' (List.mem_cons_of_mem _ hc')

/-- C4 witness: a deposit of 50 to `a`, a transfer of 120 from `a` to `b` and a
rejected transfer of 500 from `b` to `a`, run on the sample store, leave every
balance at least zero (30 and 120). -/
theorem C4_non_negative_balances_witness :
    NonNegativeBalances (runCalls sampleStore
      [(Faults.none, mkTransaction "self" "a" "-" 50),
       (Faults.none, mkTransaction "transfer" "a" "b" 120),
       (Faults.none, mkTransaction "transfer" "b" "a" 500)]) ∧
    (runCalls sampleStore
      [(Faults.none, mkTransaction "self" "a" "-" 50),
       (Faults.none, mkTransaction "transfer" "a" "b" 120),
       (Faults.none, mkTransaction "transfer" "b" "a" 500)]).accounts =
      [mkAccount "a" 30, mkAccount "b" 120] :=
  ⟨C4_non_negative_balances sampleStore _ (by unfold UniqueAccountNumbers; decide)
      (by unfold NonNegativeBalances; decide) (by decide),
    by decide⟩

/-! ## Atomicity and surfacing of failures -/

/-- C5: for every transfer or self-deposit in which a store call that follows
the opening of the unit of work is set to fail (balance read, holder debit,
receiver credit, holder credit of a self-deposit, audit insert, commit), the
store after `AddTransaction` (every account row and the audit log) is exactly
the store before it; no leg and no audit row persists alone. -/
theorem C5_atomicity (f : Faults) (db : Store) (tns : Transaction)
    (hfault : faultAfterBegin f tns = true) :
    (AddTransaction f db tns).store = db := by
  by_cases hkind : tns.TransactionType = "self"
  · simp only [faultAfterBegin, if_pos hkind] at hfault
    simp only [AddTransaction, if_pos hkind]
    cases hh : CheckAccountPresent db tns.HolderAccountNum with
    | false => rw [addSelfDeposit_absent f db tns hh]
    | true =>
      rw [addSelfDeposit_present f db tns hh]
      revert hfault
      cases f.beginTx <;> cases f.deposit <;> cases f.audit <;> cases f.commit <;> simp
  · simp only [faultAfterBegin, if_neg hkind] at hfault
    simp only [AddTransaction, if_neg hkind]
    cases hh : CheckAccountPresent db tns.HolderAccountNum with
    | false => rw [addTransfer_absent f db tns (Or.inl hh)]; split <;> rfl
    | true =>
      cases hr : CheckAccountPresent db tns.ReceiverAccountNum with
      | false => rw [addTransfer_absent f db tns (Or.inr hr)]; split <;> rfl
      | true =>
        rw [addTransfer_present f db tns hh hr]
        revert hfault
        by_cases hlt : balanceOf db tns.HolderAccountNum < tns.Amount
        · simp only [if_pos hlt]
          cases f.beginTx <;> cases f.query <;> cases f.scan <;> simp
        · simp only [if_neg hlt]
          cases f.beginTx <;> cases f.query <;> cases f.scan <;> cases f.debit <;>
            cases f.credit <;> cases f.audit <;> cases f.commit <;> simp

/-- C5 witness: a transfer of 60 from `a` (100) to `b` (0) whose receiver credit
fails after the holder debit was issued: the error of the credit is returned and
the store is the one before the call. -/
theorem C5_atomicity_witness :
    faultAfterBegin creditFails (mkTransaction "transfer" "a" "b" 60) = true ∧
    (AddTransaction creditFails sampleStore (mkTransaction "transfer" "a" "b" 60)).err =
        some (TxError.store Stmt.credit) ∧
    (AddTransaction creditFails sampleStore (mkTransaction "transfer" "a" "b" 60)).store =
        sampleStore :=
  ⟨by decide, by decide,
    C5_atomicity creditFails sampleStore (mkTransaction "transfer" "a" "b" 60) (by decide)⟩

/-- C6 (the code at the failing input): a transfer of 60 from `a` (100) to `b`
(0) whose commit fails returns no error although nothing was committed (the
store is the one before the call), while a self-deposit whose commit fails
returns the commit error. -/
theorem C6_transfer_commit_failure_not_surfaced :
    AddTransaction commitFails sampleStore (mkTransaction "transfer" "a" "b" 60) =
        ⟨Option.none, sampleStore⟩ ∧
    AddTransaction commitFails sampleStore (mkTransaction "self" "a" "-" 60) =
        ⟨some (TxError.store Stmt.commit), sampleStore⟩ := by
  decide

/-! ## Requests with a non-positive amount -/

/-- Whenever a call returns an error the store is the one before the call. -/
theorem AddTransaction_error_unchanged (f : Faults) (db : Store) (tns : Transaction)
    (herr : (AddTransaction f db tns).err ≠ Option.none) :
    (AddTransaction f db tns).store = db := by
  by_cases hkind : tns.TransactionType = "self"
  · simp only [AddTransaction, if_pos hkind] at herr ⊢
    cases hh : CheckAccountPresent db tns.HolderAccountNum with
    | false => rw [addSelfDeposit_absent f db tns hh]
    | true =>
      rw [addSelfDeposit_present f db tns hh] at herr ⊢
      revert herr
      cases f.beginTx <;> cases f.deposit <;> cases f.audit <;> cases f.commit <;> simp
  · simp only [AddTransaction, if_neg hkind] at herr ⊢
    cases hh : CheckAccountPresent db tns.HolderAccountNum with
    | false => rw [addTransfer_absent f db tns (Or.inl hh)]; split <;> rfl
    | true =>
      cases hr : CheckAccountPresent db tns.ReceiverAccountNum with
      | false => rw [addTransfer_absent f db tns (Or.inr hr)]; split <;> rfl
      | true =>
        rw [addTransfer_present f db tns hh hr] at herr ⊢
        revert herr
        by_cases hlt : balanceOf db tns.HolderAccountNum < tns.Amount
        · simp only [if_pos hlt]
          cases f.beginTx <;> cases f.query <;> cases f.scan <;> simp
        · simp only [if_neg hlt]
          cases f.beginTx <;> cases f.query <;> cases f.scan <;> cases f.debit <;>
            cases f.credit <;> cases f.audit <;> cases f.commit <;> simp

/-- C7 (as stated, refuted): the self-deposit request of amount -5 to the
existing account `a` (balance 0), posted through `createNewTransaction` with no
store failure, returns no error, leaves `a` at -5 and appends an audit row. -/
theorem C7_counterexample_negative_deposit :
    negativeDeposit.Amount ≤ 0 ∧
    (createNewTransaction Faults.none emptyWallet (some negativeDeposit) "t1" 0).err =
        Option.none ∧
    balanceOf emptyWallet "a" = 0 ∧
    balanceOf (createNewTransaction Faults.none emptyWallet
        (some negativeDeposit) "t1" 0).store "a" = -5 ∧
    emptyWallet.transactions = [] ∧
    (createNewTransaction Faults.none emptyWallet
        (some negativeDeposit) "t1" 0).store.transactions =
      [⟨"t1", "self", "a", "-", -5, "successfull", 0⟩] := by
  decide

/-- C7 (amended): a request with a non-positive amount meets no validation step.
Posted through `createNewTransaction`, it leaves the store unchanged whenever an
error is returned (any run of the store); and when its holder exists (for a
transfer also its receiver, the holder balance being at least zero) and the
store does not fail, it returns no error and is committed like any other
request: the self-deposit credit, or both legs of the transfer, and one audit
row. -/
theorem C7_non_positive_amount_not_validated (f : Faults) (db : Store)
    (req : CreateTransactionRequest) (newId : String) (now : Nat)
    (hamount : req.Amount ≤ 0) :
    ((createNewTransaction f db (some req) newId now).err ≠ Option.none →
      (createNewTransaction f db (some req) newId now).store = db) ∧
    (req.TransactionType = "self" →
      CheckAccountPresent db req.HolderAccountNum = true →
      createNewTransaction Faults.none db (some req) newId now =
        ⟨Option.none, depositApplied db (CreateNewTransactionObj newId now req)⟩) ∧
    (req.TransactionType ≠ "self" →
      CheckAccountPresent db req.HolderAccountNum = true →
      CheckAccountPresent db req.ReceiverAccountNum = true →
      0 ≤ balanceOf db req.HolderAccountNum →
      createNewTransaction Faults.none db (some req) newId now =
        ⟨Option.none, transferApplied db (CreateNewTransactionObj newId now req)⟩) := by
  refine ⟨?_, ?_, ?_⟩
  · intro herr
    exact AddTransaction_error_unchanged f db (CreateNewTransactionObj newId now req) herr
  · intro hkind hh
    have hk : (CreateNewTransactionObj newId now req).TransactionType = "self" := hkind
    simp only [createNewTransaction, AddTransaction, if_pos hk]
    rw [addSelfDeposit_present Faults.none db _ hh]
    simp [Faults.none]
  · intro hkind hh hr hbal
    have hk : (CreateNewTransactionObj newId now req).TransactionType ≠ "self" := hkind
    have hge : ¬ balanceOf db (CreateNewTransactionObj newId now req).HolderAccountNum <
        (CreateNewTransactionObj newId now req).Amount := by
      show ¬ balanceOf db req.HolderAccountNum < req.Amount
      omega
    simp only [createNewTransaction, AddTransaction, if_neg hk]
    rw [addTransfer_present Faults.none db _ hh hr]
    simp [Faults.none, hge]

/-- C7 witness: the transfer request of amount 0 from `a` to `b`, posted on the
sample store with no store failure, returns no error and appends an audit
row. -/
theorem C7_non_positive_amount_not_validated_witness :
    zeroTransfer.Amount ≤ 0 ∧
    (createNewTransaction Faults.none sampleStore (some zeroTransfer) "t1" 0).err =
        Option.none ∧
    (createNewTransaction Faults.none sampleStore (some zeroTransfer) "t1" 0).store.transactions =
      [⟨"t1", "transfer", "a", "b", 0, "successfull", 0⟩] :=
  have h := (C7_non_positive_amount_not_validated Faults.none sampleStore zeroTransfer "t1" 0
    (by decide)).2.2 (by decide) (by decide) (by decide) (by decide)
  ⟨by decide, by rw [h], by rw [h]; decide⟩

/-! ## Self-deposit -/

/-- The balance read after a self-deposit that was applied. -/
theorem balanceOf_depositApplied (db : Store) (tns : Transaction)
    (hh : CheckAccountPresent db tns.HolderAccountNum = true) :
    balanceOf (depositApplied db tns) tns.HolderAccountNum =
      balanceOf db tns.HolderAccountNum + tns.Amount := by
  simp only [balanceOf, depositApplied]
  rw [selectBalance_creditRows_same, scanBalance_map _ _ (selectBalance_ne_nil_of_present db _ hh)]

/-- C8: a self-deposit of amount A whose holder exists, in a run without store
failure, returns no error; the holder balance becomes its old value plus A; and
the audit log is the old log followed by exactly one row, of kind "self", with
the identifier, holder, amount, status and creation time of the transaction and
with receiver "-" whatever receiver the request carried. -/
theorem C8_self_deposit (db : Store) (tns : Transaction)
    (hkind : tns.TransactionType = "self")
    (hh : CheckAccountPresent db tns.HolderAccountNum = true) :
    (AddTransaction Faults.none db tns).err = Option.none ∧
    balanceOf (AddTransaction Faults.none db tns).store tns.HolderAccountNum =
      balanceOf db tns.HolderAccountNum + tns.Amount ∧
    (AddTransaction Faults.none db tns).store.transactions =
      db.transactions ++
        [⟨tns.TransactionId, "self", tns.HolderAccountNum, "-", tns.Amount, tns.Status,
          tns.CreatedAt⟩] := by
  have hform : AddTransaction Faults.none db tns = ⟨Option.none, depositApplied db tns⟩ := by
    simp only [AddTransaction, if_pos hkind]
    rw [addSelfDeposit_present Faults.none db tns hh]
    simp [Faults.none]
  rw [hform]
  refine ⟨rfl, balanceOf_depositApplied db tns hh, ?_⟩
  simp [depositApplied, auditRow, hkind]

/-- C8 witness: holder balance 0, self-deposit of 50 carrying the receiver `b`:
no error, balance 50, and one audit row whose receiver is "-". -/
theorem C8_self_deposit_witness :
    balanceOf emptyWallet "a" = 0 ∧
    (AddTransaction Faults.none emptyWallet (mkTransaction "self" "a" "b" 50)).err =
        Option.none ∧
    balanceOf (AddTransaction Faults.none emptyWallet
        (mkTransaction "self" "a" "b" 50)).store "a" = 50 ∧
    (AddTransaction Faults.none emptyWallet (mkTransaction "self" "a" "b" 50)).store.transactions =
      [⟨"t1", "self", "a", "-", 50, "successfull", 0⟩] :=
  have h := C8_self_deposit emptyWallet (mkTransaction "self" "a" "b" 50) (by decide) (by decide)
  ⟨by decide, h.1, h.2.1.trans (by decide), h.2.2.trans (by decide)⟩

/-! ## Audit log -/

/-- The audit log after a call: unchanged when an error is returned; the old log
followed by the one row of the transaction when no error is returned, for a
self-deposit always and for a transfer when the commit did not fail. -/
theorem auditLog_after_call (f : Faults) (db : Store) (tns : Transaction) :
    ((AddTransaction f db tns).err ≠ Option.none →
      (AddTransaction f db tns).store.transactions = db.transactions) ∧
    ((AddTransaction f db tns).err = Option.none →
      (tns.TransactionType = "self" ∨ f.commit = false) →
      (AddTransaction f db tns).store.transactions =
        db.transactions ++
          [auditRow tns (if tns.TransactionType = "self" then "-" else tns.ReceiverAccountNum)])
    := by
  constructor
  · intro herr
    rw [AddTransaction_error_unchanged f db tns herr]
  · intro herr hc
    by_cases hkind : tns.TransactionType = "self"
    · rw [(selfDeposit_of_no_error f db tns hkind herr).2, if_pos hkind]
      rfl
    · have hcommit : f.commit = false := hc.resolve_left hkind
      rw [(transfer_of_no_error f db tns hkind herr).2.2.2, if_neg hkind, hcommit]
      rfl

/-- C9 (the code at the failing input): a transfer of 25 from `a` to `b` whose
commit fails returns no error, and the audit log after the call is the log
before it: no row was appended for the call that reported success. -/
theorem C9_success_without_audit_row :
    (AddTransaction commitFails loggedStore (mkTransaction "transfer" "a" "b" 25)).err =
        Option.none ∧
    (AddTransaction commitFails loggedStore (mkTransaction "transfer" "a" "b" 25)).store.transactions =
        loggedStore.transactions ∧
    loggedStore.transactions.length = 1 := by
  decide

/-! ## Frame -/

theorem frameRow_same (tns : Transaction) (a : Account) : FrameRow tns a a :=
  ⟨⟨rfl, rfl, rfl, rfl, rfl, rfl⟩, fun _ _ => rfl, fun _ _ => rfl⟩

/-- The credit of a self-deposit, row by row. -/
theorem frameRow_deposit (tns : Transaction) (a : Account) :
    FrameRow tns a
      (if a.AccountNumber = tns.HolderAccountNum then
        { a with Balance := a.Balance + tns.Amount } else a) := by
  by_cases hx : a.AccountNumber = tns.HolderAccountNum
  · rw [if_pos hx]
    exact ⟨⟨rfl, rfl, rfl, rfl, rfl, rfl⟩, fun h => absurd hx h, fun _ h => absurd hx h⟩
  · rw [if_neg hx]
    exact frameRow_same tns a

/-- The debit followed by the credit of a transfer, row by row. -/
theorem frameRow_transfer (tns : Transaction) (hkind : tns.TransactionType ≠ "self")
    (a : Account) :
    FrameRow tns a
      (if (if a.AccountNumber = tns.HolderAccountNum then
            { a with Balance := a.Balance - tns.Amount } else a).AccountNumber =
          tns.ReceiverAccountNum then
        { (if a.AccountNumber = tns.HolderAccountNum then
            { a with Balance := a.Balance - tns.Amount } else a) with
          Balance := (if a.AccountNumber = tns.HolderAccountNum then
            { a with Balance := a.Balance - tns.Amount } else a).Balance + tns.Amount }
      else (if a.AccountNumber = tns.HolderAccountNum then
            { a with Balance := a.Balance - tns.Amount } else a)) := by
  by_cases hx : a.AccountNumber = tns.HolderAccountNum
  · by_cases hy : a.AccountNumber = tns.ReceiverAccountNum
    · simp only [if_pos hx, if_pos hy]
      exact ⟨⟨rfl, rfl, rfl, rfl, rfl, rfl⟩, fun h => absurd hx h, fun h => absurd h hkind⟩
    · simp only [if_pos hx, if_neg hy]
      exact ⟨⟨rfl, rfl, rfl, rfl, rfl, rfl⟩, fun h => absurd hx h, fun h => absurd h hkind⟩
  · by_cases hy : a.AccountNumber = tns.ReceiverAccountNum
    · simp only [if_neg hx, if_pos hy]
      exact ⟨⟨rfl, rfl, rfl, rfl, rfl, rfl⟩, fun _ h => absurd hy h, fun h => absurd h hkind⟩
    · simp only [if_neg hx, if_neg hy]
      exact frameRow_same tns a

/-- C11 (as stated, refuted): a self-deposit of 50 whose request names the
holder `a` as receiver as well is committed, and the row of the receiver named
in the request is modified: its balance goes from 0 to 50. -/
theorem C11_counterexample_receiver_is_holder :
    (mkTransaction "self" "a" "a" 50).TransactionType = "self" ∧
    (mkTransaction "self" "a" "a" 50).ReceiverAccountNum = "a" ∧
    emptyWallet.accounts = [mkAccount "a" 0] ∧
    (AddTransaction Faults.none emptyWallet (mkTransaction "self" "a" "a" 50)).err =
        Option.none ∧
    (AddTransaction Faults.none emptyWallet (mkTransaction "self" "a" "a" 50)).store.accounts =
        [mkAccount "a" 50] ∧
    mkAccount "a" 50 ≠ mkAccount "a" 0 := by
  decide

/-- C11 (amended): for every call, whatever its outcome and whatever the run of
the store, the account rows after the call correspond one to one, in table
order, to the rows before it; in each row nothing but the balance differs (id,
names, email, account number, creation time are the same); a row carrying
neither the holder's nor the receiver's number is the same row; and in a
self-deposit every row not carrying the holder's number is the same row, so the
receiver named in the request is not modified unless it is the holder itself. -/
theorem C11_frame (f : Faults) (db : Store) (tns : Transaction) :
    List.Forall₂ (FrameRow tns) db.accounts (AddTransaction f db tns).store.accounts := by
  rcases AddTransaction_store_cases f db tns with h | ⟨-, h⟩ | ⟨hkind, -, h⟩
  · rw [h, List.forall₂_same]
    intro a _
    exact frameRow_same tns a
  · rw [h]
    simp only [depositApplied, creditRows]
    rw [List.forall₂_map_right_iff, List.forall₂_same]
    intro a _
    exact frameRow_deposit tns a
  · rw [h]
    simp only [transferApplied, creditRows, debitRows, List.map_map]
    rw [List.forall₂_map_right_iff, List.forall₂_same]
    intro a _
    exact frameRow_transfer tns hkind a

/-- C11 witness: a transfer of 60 from `a` to `b` in a store that also holds `c`:
three rows before and after, `c` still at 7, `a` and `b` changed in balance
only. -/
theorem C11_frame_witness :
    (AddTransaction Faults.none threeAccounts
        (mkTransaction "transfer" "a" "b" 60)).store.accounts.length =
      threeAccounts.accounts.length ∧
    (AddTransaction Faults.none threeAccounts (mkTransaction "transfer" "a" "b" 60)).store.accounts =
      [mkAccount "a" 40, mkAccount "b" 60, mkAccount "c" 7] :=
  ⟨(C11_frame Faults.none threeAccounts (mkTransaction "transfer" "a" "b" 60)).length_eq.symm,
    by decide⟩

end GoTransactions
